import Mathlib

/-!
Shallow embedding of `src/run.ts` of the k8s-bake action.

The TypeScript source renders Kubernetes manifests through one of three
engines (helm2, kompose, kustomize).  Pure computations (argument building,
override parsing, version gating, engine selection, template-path
construction) are embedded as Lean functions; the effectful `bake()` flows
are embedded as explicit state passing: every external observation
(configuration inputs, the scratch-directory environment variable, the
current timestamp, resolved tool paths, outcomes of external process
invocations) is a field of a `World`, and every externally visible action
(process invocation, file write, output report) is recorded in a `Trace`.

JavaScript strings are Lean `String`s; `s.split(sep)` for a one-character
separator is embedded via `List.splitOn` on the character data, and
`Array.prototype.join(sep)` via `List.intercalate`.
-/

/-- Embedding of JavaScript `s.split(c)` for a single-character separator:
split the character data at every occurrence of `c` (an empty string yields
`[""]`, a trailing separator yields a trailing `""`, exactly as in JS). -/
def splitString (c : Char) (s : String) : List String :=
  (s.data.splitOn c).map String.mk

/-- Embedding of JavaScript `pieces.join(c)` for a one-character separator
(`[].join` is `""`, `[x].join` is `x`). -/
def joinStrings (c : Char) (l : List String) : String :=
  String.mk (List.intercalate [c] (l.map String.data))

/-- The `NameValuePair` shape imported from `helm-util`: one parsed override. -/
structure NameValuePair where
  name : String
  value : String
deriving Repr, DecidableEq

/-- Embedding of `HelmRenderEngine.getOverrideValues` (run.ts lines 46-59):
each token is split on `:`; the name is element 0 and the value is the
remaining pieces re-joined with `:` (`slice(1).join(':')`). -/
def getOverrideValues (overrides : List String) : List NameValuePair :=
  overrides.map fun arg =>
    let overrideInput := splitString ':' arg
    let overrideName := overrideInput.headD ""
    let overrideValue := joinStrings ':' overrideInput.tail
    { name := overrideName, value := overrideValue }

/-- Embedding of `core.getInput(name, required: true)` from `@actions/core`
(an external collaborator): a required input that is absent (empty) raises
a required-input error. -/
def getInputRequired (value : String) (name : String) : Except String String :=
  if value = "" then .error ("Input required and not supplied: " ++ name)
  else .ok value

/-- Embedding of `HelmRenderEngine.getTemplateArgs` (run.ts lines 61-98).
Inputs are the raw values of the `releaseName`, `helmChart`,
`overrideFiles` and `overrides` configuration inputs (`""` models an
absent optional input, matching `core.getInput`'s empty-string default);
`helmChart` is read with `required: true`, so an empty value raises before
any argument is built.  `forEach`/`push` loops are embedded as `foldl`s
that append to the argument list. -/
def getTemplateArgs (releaseName helmChart overrideFilesInput overridesInput : String) :
    Except String (List String) :=
  if helmChart = "" then .error "Input required and not supplied: helmChart"
  else
    let args : List String := ["template", helmChart]
    let args := if releaseName ≠ "" then args ++ ["--name", releaseName] else args
    let args :=
      if overrideFilesInput ≠ "" then
        let overrideFiles := splitString '\n' overrideFilesInput
        if overrideFiles.length > 0 then
          overrideFiles.foldl (fun a file => a ++ ["-f", file]) args
        else args
      else args
    let args :=
      if overridesInput ≠ "" then
        let overrides := splitString '\n' overridesInput
        if overrides.length > 0 then
          (getOverrideValues overrides).foldl
            (fun a ov => a ++ ["--set", ov.name ++ "=" ++ ov.value]) args
        else args
      else args
    .ok args

/-- Embedding of Node's `path.join(dir, file)` (external collaborator),
for a directory with no trailing separator; `path.join`'s normalisation of
degenerate inputs is not modelled. -/
def pathJoin (dir file : String) : String := dir ++ "/" ++ file

/-- Embedding of `RenderEngine.getTemplatePath` (run.ts lines 18-26).
`runnerTemp` is the value of `process.env['RUNNER_TEMP']` (`none` when the
variable is unset); the truthiness test `!!tempDirectory` fails for both an
unset and an empty variable.  `currentTime` is the value observed from
`utilities.getCurrentTime()` (utilities.ts, an external timestamp source:
the current clock tick), and `.toString()` is `Nat.repr` via `toString`. -/
def getTemplatePath (runnerTemp : Option String) (currentTime : Nat) : Except String String :=
  match runnerTemp with
  | some tempDirectory =>
    if tempDirectory ≠ "" then
      .ok (pathJoin tempDirectory ("baked-template-" ++ toString currentTime ++ ".yaml"))
    else .error "Unable to create temp directory."
  | none => .error "Unable to create temp directory."

/-- Two successive calls of `getTemplatePath` in one run, observing
timestamp ticks `t1` and `t2` respectively. -/
def templatePathsOfTwoCalls (runnerTemp : Option String) (t1 t2 : Nat) :
    Except String (String × String) :=
  match getTemplatePath runnerTemp t1 with
  | .error e => .error e
  | .ok p1 =>
    match getTemplatePath runnerTemp t2 with
    | .error e => .error e
    | .ok p2 => .ok (p1, p2)

/-- The `clientVersion` field of the JSON printed by `kubectl version
--client=true -o json`, with `major`/`minor` already taken through JavaScript
`parseInt` (the inputs relevant to the claims are well-formed decimal
numerals, so the parse is modelled as the resulting integer). -/
structure ClientVersion where
  major : Int
  minor : Int
deriving Repr, DecidableEq

/-- The stdout of the `kubectl version` invocation, as observed by
`validateKustomize`: either falsy (empty) or a JSON document whose
`clientVersion` field may be absent (`JSON.parse` failure on malformed
output is not distinguished from other external errors). -/
inductive VersionStdout where
  | empty
  | parsed (clientVersion : Option ClientVersion)
deriving Repr, DecidableEq

/-- Embedding of `KustomizeRenderEngine.validateKustomize` (run.ts lines
137-148), after the `kubectl version --client=true -o json` invocation
itself has produced `versionStdout`: an empty stdout skips the whole
check; otherwise a present `clientVersion` with `major >= 1 && minor >= 14`
passes and anything else raises the unsupported-version error. -/
def validateKustomize (versionStdout : VersionStdout) : Except String Unit :=
  match versionStdout with
  | .empty => .ok ()
  | .parsed clientVersion =>
    match clientVersion with
    | some cv =>
      if 1 ≤ cv.major ∧ 14 ≤ cv.minor then .ok ()
      else .error "kubectl client version equal to v1.14 or higher is required to use kustomize features"
    | none => .error "kubectl client version equal to v1.14 or higher is required to use kustomize features"

/-- The three render engines of run.ts. -/
inductive EngineKind where
  | helm
  | kompose
  | kustomize
deriving Repr, DecidableEq

/-- Embedding of the `switch (renderType)` of `run` (run.ts lines 156-168):
the three literal tags select the three engines, anything else selects
nothing (the `default` branch throws `"Unknown render engine"`). -/
def selectEngine (renderType : String) : Option EngineKind :=
  if renderType = "helm2" then some .helm
  else if renderType = "kompose" then some .kompose
  else if renderType = "kustomize" then some .kustomize
  else none

/-- Result of an external process invocation (`utilities.execCommand`
resolves with the captured stdout; a non-zero exit or spawn failure
rejects, which the `World` models as `Except.error`). -/
structure ExecResult where
  stdout : String
deriving Repr, DecidableEq

/-- The configuration inputs of the action, as returned by
`core.getInput` (`""` models an absent input). -/
structure Inputs where
  renderEngine : String
  helmChart : String
  releaseName : String
  overrideFiles : String
  overrides : String
  dockerComposeFile : String
  kustomizationPath : String
deriving Repr, DecidableEq

/-- Everything a single run observes from the outside world:
configuration inputs, the `RUNNER_TEMP` environment variable, the
timestamp tick `utilities.getCurrentTime()` returns, actual on-disk file
existence (what `ioUtil.exists` would resolve to), the outcomes of the
tool-path resolutions (`getHelmPath`/`getKomposePath`/`getKubectlPath`),
and the outcomes of the two possible external invocations (the
`kubectl version` probe and the render command itself). -/
structure World where
  inputs : Inputs
  runnerTemp : Option String
  currentTime : Nat
  fileExists : String → Bool
  helmPath : Except String String
  komposePath : Except String String
  kubectlPath : Except String String
  kubectlVersionResult : Except String VersionStdout
  renderResult : Except String ExecResult

/-- Externally visible actions of one run: external process invocations
(`utilities.execCommand`, as executable plus argument list, in order),
file writes (`fs.writeFileSync`, as path plus contents) and reported
outputs (`core.setOutput`, as name plus value). -/
structure Trace where
  calls : List (String × List String)
  writes : List (String × String)
  outputs : List (String × String)
deriving Repr, DecidableEq

/-- The empty trace: nothing invoked, written or reported yet. -/
def emptyTrace : Trace := ⟨[], [], []⟩

/-- Truthiness of the value tested by `if (!ioUtil.exists(path))` in
run.ts (lines 104 and 121): `ioUtil.exists` is `async` and the call is
not awaited, so the tested value is a `Promise` object, and an object is
always truthy in JavaScript.  The boolean the promise would resolve to —
actual file existence, passed here as `resolvesTo` — is therefore never
consulted by the test. -/
def existsPromiseTruthy (_resolvesTo : Bool) : Bool := true

/-- Embedding of `HelmRenderEngine.bake` (run.ts lines 30-44), in source
order: resolve the helm path, build the template arguments (which reads
`releaseName` and the required `helmChart`), invoke helm, allocate the
template path, write the captured stdout there, and report
`manifestsBundle`.  The first failing step aborts the rest, with the
trace accumulated so far. -/
def helmBake (w : World) : Trace × Except String Unit :=
  match w.helmPath with
  | .error e => (emptyTrace, .error e)
  | .ok helmPath =>
    match getTemplateArgs w.inputs.releaseName w.inputs.helmChart
        w.inputs.overrideFiles w.inputs.overrides with
    | .error e => (emptyTrace, .error e)
    | .ok args =>
      let tr : Trace := { emptyTrace with calls := [(helmPath, args)] }
      match w.renderResult with
      | .error e => (tr, .error e)
      | .ok result =>
        match getTemplatePath w.runnerTemp w.currentTime with
        | .error e => (tr, .error e)
        | .ok pathToBakedManifest =>
          ({ tr with
              writes := [(pathToBakedManifest, result.stdout)],
              outputs := [("manifestsBundle", pathToBakedManifest)] },
           .ok ())

/-- Embedding of `KomposeRenderEngine.bake` (run.ts lines 102-113), in
source order: read the required `dockerComposeFile` input, test the
un-awaited `ioUtil.exists` promise for falsiness (never taken, see
`existsPromiseTruthy`), resolve the kompose path, allocate the template
path, invoke `kompose convert -f <file> -o <path>` (kompose writes the
output file itself), and report `manifestsBundle`. -/
def komposeBake (w : World) : Trace × Except String Unit :=
  match getInputRequired w.inputs.dockerComposeFile "dockerComposeFile" with
  | .error e => (emptyTrace, .error e)
  | .ok dockerComposeFilePath =>
    if existsPromiseTruthy (w.fileExists dockerComposeFilePath) = false then
      (emptyTrace, .error ("Docker compose file path " ++ dockerComposeFilePath ++
        " does not exist. Please check the path specified"))
    else
      match w.komposePath with
      | .error e => (emptyTrace, .error e)
      | .ok komposePath =>
        match getTemplatePath w.runnerTemp w.currentTime with
        | .error e => (emptyTrace, .error e)
        | .ok pathToBakedManifest =>
          let call := (komposePath,
            ["convert", "-f", dockerComposeFilePath, "-o", pathToBakedManifest])
          match w.renderResult with
          | .error e => ({ emptyTrace with calls := [call] }, .error e)
          | .ok _ =>
            ({ emptyTrace with
                calls := [call],
                outputs := [("manifestsBundle", pathToBakedManifest)] },
             .ok ())

/-- Embedding of `KustomizeRenderEngine.bake` (run.ts lines 117-135), in
source order: resolve the kubectl path, run the `kubectl version` probe
and gate on it (`validateKustomize`), read the required
`kustomizationPath` input, test the un-awaited `ioUtil.exists` promise
for falsiness (never taken), invoke `kubectl kustomize <path>`, allocate
the template path, write the captured stdout there, and report
`manifestsBundle`. -/
def kustomizeBake (w : World) : Trace × Except String Unit :=
  match w.kubectlPath with
  | .error e => (emptyTrace, .error e)
  | .ok kubectlPath =>
    let versionCall := (kubectlPath, ["version", "--client=true", "-o", "json"])
    match w.kubectlVersionResult with
    | .error e => ({ emptyTrace with calls := [versionCall] }, .error e)
    | .ok versionStdout =>
      let tr0 : Trace := { emptyTrace with calls := [versionCall] }
      match validateKustomize versionStdout with
      | .error e => (tr0, .error e)
      | .ok () =>
        match getInputRequired w.inputs.kustomizationPath "kustomizationPath" with
        | .error e => (tr0, .error e)
        | .ok kustomizationPath =>
          if existsPromiseTruthy (w.fileExists kustomizationPath) = false then
            (tr0, .error ("kustomizationPath " ++ kustomizationPath ++
              " does not exist. Please check whether file exists or not."))
          else
            let tr1 : Trace :=
              { tr0 with calls := tr0.calls ++ [(kubectlPath, ["kustomize", kustomizationPath])] }
            match w.renderResult with
            | .error e => (tr1, .error e)
            | .ok result =>
              match getTemplatePath w.runnerTemp w.currentTime with
              | .error e => (tr1, .error e)
              | .ok pathToBakedManifest =>
                ({ tr1 with
                    writes := [(pathToBakedManifest, result.stdout)],
                    outputs := [("manifestsBundle", pathToBakedManifest)] },
                 .ok ())

/-- Dispatch of `renderEngine.bake()` over the selected engine. -/
def bakeDispatch (engine : EngineKind) (w : World) : Trace × Except String Unit :=
  match engine with
  | .helm => helmBake w
  | .kompose => komposeBake w
  | .kustomize => kustomizeBake w

/-- Embedding of `run` (run.ts lines 151-176): read the required
`renderEngine` input, select the engine (the `default` branch throws
`"Unknown render engine"` — outside the `try`), then `try { bake() }`
and wrap any error from inside `bake()` as
`"Failed to run bake action. Error: " ++ e` (`util.format` with the
underlying error's description). -/
def run (w : World) : Trace × Except String Unit :=
  match getInputRequired w.inputs.renderEngine "renderEngine" with
  | .error e => (emptyTrace, .error e)
  | .ok renderType =>
    match selectEngine renderType with
    | none => (emptyTrace, .error "Unknown render engine")
    | some engine =>
      let (tr, r) := bakeDispatch engine w
      match r with
      | .ok () => (tr, .ok ())
      | .error err => (tr, .error ("Failed to run bake action. Error: " ++ err))

/-- All-absent configuration inputs, to be overridden per scenario. -/
def baseInputs : Inputs :=
  { renderEngine := "", helmChart := "", releaseName := "", overrideFiles := "",
    overrides := "", dockerComposeFile := "", kustomizationPath := "" }

/-- A benign world: scratch directory present, all tools resolve, all
external invocations succeed, every file exists. -/
def baseWorld : World where
  inputs := baseInputs
  runnerTemp := some "/tmp"
  currentTime := 7
  fileExists := fun _ => true
  helmPath := .ok "/usr/local/bin/helm"
  komposePath := .ok "/usr/local/bin/kompose"
  kubectlPath := .ok "/usr/local/bin/kubectl"
  kubectlVersionResult := .ok (.parsed (some ⟨1, 18⟩))
  renderResult := .ok ⟨"rendered-manifest"⟩

/-- A kompose run whose `dockerComposeFile` does not exist on disk. -/
def komposeMissingFileWorld : World :=
  { baseWorld with
      inputs := { baseInputs with
        renderEngine := "kompose", dockerComposeFile := "/missing/docker-compose.yml" },
      fileExists := fun _ => false }

/-- A kustomize run whose `kustomizationPath` does not exist on disk. -/
def kustomizeMissingPathWorld : World :=
  { baseWorld with
      inputs := { baseInputs with
        renderEngine := "kustomize", kustomizationPath := "./missing-overlay" },
      fileExists := fun _ => false }

/-- A kustomize run where the `kubectl version` probe prints nothing. -/
def kustomizeEmptyVersionWorld : World :=
  { baseWorld with
      inputs := { baseInputs with
        renderEngine := "kustomize", kustomizationPath := "./overlay" },
      kubectlVersionResult := .ok .empty }

/-- A helm run where the helm executable fails to resolve. -/
def helmFailWorld : World :=
  { baseWorld with
      inputs := { baseInputs with renderEngine := "helm2", helmChart := "./chart" },
      helmPath := .error "helm not found" }

/-- A run with an unrecognised `renderEngine` value. -/
def unknownEngineWorld : World :=
  { baseWorld with inputs := { baseInputs with renderEngine := "helm3" } }

/-- Reference digit string (most significant digit first) of a natural
number, used to reason about `Nat.repr`. -/
def natDigits (n : Nat) : List Char :=
  if n < 10 then [Nat.digitChar n]
  else natDigits (n / 10) ++ [Nat.digitChar (n % 10)]
decreasing_by exact Nat.div_lt_self (by omega) (by omega)

/-- Numeric value of one decimal digit character. -/
def decodeDigit (c : Char) : Nat := c.toNat - '0'.toNat

/-- Numeric value of a decimal digit string (most significant first). -/
def decodeDigits (l : List Char) : Nat :=
  l.foldl (fun acc c => acc * 10 + decodeDigit c) 0

/-- A `forEach`/`push` loop that appends a flag/value pair per element
equals appending all the pairs, in element order. -/
theorem foldl_push_pairs {α β : Type} (k : β) (f : α → β) (l : List α) (args : List β) :
    l.foldl (fun a x => a ++ [k, f x]) args = args ++ l.flatMap (fun x => [k, f x]) := by
  induction l generalizing args with
  | nil => simp
  | cons x xs ih => simp [ih, List.append_assoc]

/-- Splitting never produces an empty list of pieces. -/
theorem splitString_length_pos (c : Char) (s : String) : 0 < (splitString c s).length := by
  have h : s.data.splitOn c ≠ [] := by
    rw [List.splitOn]
    exact List.splitOnP_ne_nil _ _
  simpa [splitString, List.length_pos] using h

/-- Splitting a string whose head part is separator-free peels off exactly
that head part. -/
theorem splitString_append_sep (c : Char) (n v : String) (h : c ∉ n.data) :
    splitString c (n ++ String.mk [c] ++ v) = n :: splitString c v := by
  unfold splitString
  have hdata : (n ++ String.mk [c] ++ v).data = n.data ++ c :: v.data := by
    simp [String.data_append]
  rw [hdata, List.splitOn, List.splitOn,
    List.splitOnP_first _ _ (fun x hx => by simp; exact fun hxc => h (hxc ▸ hx)) c (by simp)]
  rfl

/-- Re-joining the split pieces with the separator restores the string. -/
theorem joinStrings_splitString (c : Char) (s : String) :
    joinStrings c (splitString c s) = s := by
  unfold joinStrings splitString
  rw [List.map_map]
  have hcomp : String.data ∘ String.mk = id := rfl
  rw [hcomp, List.map_id]
  rw [List.intercalate_splitOn]

/-- C1: For the Helm engine, the argument list built for the external
invocation is exactly, in order: `template`, then the chart path; then, if
a release name input is provided, `--name` followed by the release name;
then, for each entry of the newline-split override-files input in input
order, `-f` followed by that file; then, for each entry of the
newline-split overrides input in input order, `--set` followed by
`name=value`. -/
theorem helm_template_args_exact_order
    (releaseName helmChart overrideFilesInput overridesInput : String)
    (hc : helmChart ≠ "") :
    getTemplateArgs releaseName helmChart overrideFilesInput overridesInput =
      .ok (["template", helmChart]
        ++ (if releaseName ≠ "" then ["--name", releaseName] else [])
        ++ (if overrideFilesInput ≠ "" then
              (splitString '\n' overrideFilesInput).flatMap (fun file => ["-f", file])
            else [])
        ++ (if overridesInput ≠ "" then
              (getOverrideValues (splitString '\n' overridesInput)).flatMap
                (fun ov => ["--set", ov.name ++ "=" ++ ov.value])
            else [])) := by
  unfold getTemplateArgs
  rw [if_neg hc]
  by_cases hr : releaseName = "" <;>
    by_cases hf : overrideFilesInput = "" <;>
      by_cases ho : overridesInput = "" <;>
        simp [hr, hf, ho, splitString_length_pos, foldl_push_pairs, List.append_assoc]

/-- Witness for C1: a run with all Helm inputs provided. -/
theorem helm_template_args_exact_order_witness :
    ("./chart" : String) ≠ "" ∧
    getTemplateArgs "myrelease" "./chart" "a.yaml\nb.yaml" "image.tag:v1.2.3\nreplicaCount:3" =
      .ok ["template", "./chart", "--name", "myrelease", "-f", "a.yaml", "-f", "b.yaml",
           "--set", "image.tag=v1.2.3", "--set", "replicaCount=3"] := by
  refine ⟨by decide, ?_⟩
  rw [helm_template_args_exact_order "myrelease" "./chart" "a.yaml\nb.yaml"
    "image.tag:v1.2.3\nreplicaCount:3" (by decide)]
  rfl

/-- C2: Override parsing splits only on the first colon: the name is the
substring before the first `:` and the value is everything after it, so a
value containing further colons is preserved intact; `image.tag:v1.2.3`
yields name `image.tag` / value `v1.2.3`, and `replicaCount:3` yields
name `replicaCount` / value `3`. -/
theorem override_parse_splits_on_first_colon :
    (∀ n v : String, ':' ∉ n.data →
      getOverrideValues [n ++ ":" ++ v] = [{ name := n, value := v }]) ∧
    getOverrideValues ["image.tag:v1.2.3"] = [{ name := "image.tag", value := "v1.2.3" }] ∧
    getOverrideValues ["replicaCount:3"] = [{ name := "replicaCount", value := "3" }] := by
  refine ⟨?_, by decide, by decide⟩
  intro n v h
  have hsplit : splitString ':' (n ++ ":" ++ v) = n :: splitString ':' v :=
    splitString_append_sep ':' n v h
  unfold getOverrideValues
  simp only [List.map_cons, List.map_nil, hsplit, List.headD_cons, List.tail_cons,
    joinStrings_splitString]

/-- Witness for C2: the colon-in-value example from the spec. -/
theorem override_parse_splits_on_first_colon_witness :
    (':' ∉ ("image.tag" : String).data) ∧
    getOverrideValues ["image.tag" ++ ":" ++ "v1.2.3"] =
      [{ name := "image.tag", value := "v1.2.3" }] := by
  refine ⟨by decide, ?_⟩
  exact override_parse_splits_on_first_colon.1 "image.tag" "v1.2.3" (by decide)

/-- C3: Engine selection maps the renderEngine input 1:1 to the three
engine variants — `helm2` to Helm, `kompose` to Kompose, `kustomize` to
Kustomize — and for every other string it selects no engine and the run
fails with the terminal unknown-engine error. -/
theorem engine_selection_one_to_one :
    selectEngine "helm2" = some EngineKind.helm ∧
    selectEngine "kompose" = some EngineKind.kompose ∧
    selectEngine "kustomize" = some EngineKind.kustomize ∧
    (∀ s : String, s ≠ "helm2" → s ≠ "kompose" → s ≠ "kustomize" →
      selectEngine s = none) ∧
    (∀ w : World, selectEngine w.inputs.renderEngine = none →
      w.inputs.renderEngine ≠ "" →
      run w = (emptyTrace, .error "Unknown render engine")) := by
  refine ⟨rfl, rfl, rfl, ?_, ?_⟩
  · intro s h1 h2 h3
    simp [selectEngine, h1, h2, h3]
  · intro w hsel hne
    unfold run getInputRequired
    rw [if_neg hne]
    simp [hsel]

/-- Witness for C3: `helm3` is not a recognised engine and the run fails
with the unwrapped unknown-engine error. -/
theorem engine_selection_one_to_one_witness :
    (("helm3" : String) ≠ "helm2" ∧ ("helm3" : String) ≠ "kompose" ∧
      ("helm3" : String) ≠ "kustomize" ∧ selectEngine "helm3" = none) ∧
    (selectEngine unknownEngineWorld.inputs.renderEngine = none ∧
      unknownEngineWorld.inputs.renderEngine ≠ "" ∧
      run unknownEngineWorld = (emptyTrace, .error "Unknown render engine")) := by
  refine ⟨⟨by decide, by decide, by decide, ?_⟩, ?_, by decide, ?_⟩
  · exact engine_selection_one_to_one.2.2.2.1 "helm3" (by decide) (by decide) (by decide)
  · exact engine_selection_one_to_one.2.2.2.1 "helm3" (by decide) (by decide) (by decide)
  · exact engine_selection_one_to_one.2.2.2.2 unknownEngineWorld
      (engine_selection_one_to_one.2.2.2.1 "helm3" (by decide) (by decide) (by decide))
      (by decide)

/-- C5: The Kustomize version gate succeeds exactly when the parsed
`clientVersion.major >= 1` and `clientVersion.minor >= 14`; in particular
major 1 / minor 14 and major 1 / minor 20 pass, major 1 / minor 13 fails,
and major 2 / minor 0 fails under this comparison. -/
theorem kustomize_version_gate_policy :
    (∀ cv : ClientVersion,
      validateKustomize (.parsed (some cv)) = .ok () ↔ 1 ≤ cv.major ∧ 14 ≤ cv.minor) ∧
    validateKustomize (.parsed (some ⟨1, 14⟩)) = .ok () ∧
    validateKustomize (.parsed (some ⟨1, 20⟩)) = .ok () ∧
    validateKustomize (.parsed (some ⟨1, 13⟩)) =
      .error "kubectl client version equal to v1.14 or higher is required to use kustomize features" ∧
    validateKustomize (.parsed (some ⟨2, 0⟩)) =
      .error "kubectl client version equal to v1.14 or higher is required to use kustomize features" := by
  refine ⟨?_, rfl, rfl, rfl, rfl⟩
  intro cv
  unfold validateKustomize
  by_cases h : 1 ≤ cv.major ∧ 14 ≤ cv.minor
  · simp [h]
  · simp [h]

/-- C6: `getTemplatePath` reads the scratch-directory location from the
environment; when present it returns
`scratchDir ++ "/baked-template-" ++ timestamp ++ ".yaml"` under that
directory, and when absent (unset or empty variable) it raises the
temp-directory error instead of returning a path. -/
theorem template_path_requires_scratch_dir (t : String) (time : Nat) :
    (t ≠ "" → getTemplatePath (some t) time =
      .ok (t ++ "/" ++ ("baked-template-" ++ toString time ++ ".yaml"))) ∧
    getTemplatePath none time = .error "Unable to create temp directory." ∧
    getTemplatePath (some "") time = .error "Unable to create temp directory." := by
  refine ⟨?_, rfl, rfl⟩
  intro ht
  simp [getTemplatePath, pathJoin, ht]

/-- Witness for C6: a present scratch directory yields the path under it. -/
theorem template_path_requires_scratch_dir_witness :
    ("/tmp" : String) ≠ "" ∧
    getTemplatePath (some "/tmp") 7 =
      .ok ("/tmp" ++ "/" ++ ("baked-template-" ++ toString 7 ++ ".yaml")) := by
  refine ⟨by decide, ?_⟩
  exact (template_path_requires_scratch_dir "/tmp" 7).1 (by decide)

/-- With enough fuel, `Nat.toDigitsCore` produces the reference digit
string, prepended to the accumulator. -/
theorem toDigitsCore_eq_natDigits :
    ∀ (fuel n : Nat) (ds : List Char), n < fuel →
      Nat.toDigitsCore 10 fuel n ds = natDigits n ++ ds := by
  intro fuel
  induction fuel with
  | zero => intro n ds h; omega
  | succ f ih =>
    intro n ds h
    simp only [Nat.toDigitsCore]
    by_cases h0 : n / 10 = 0
    · have hn : n < 10 := by omega
      have hmod : n % 10 = n := Nat.mod_eq_of_lt hn
      rw [if_pos h0, natDigits, if_pos hn, hmod]
      rfl
    · have hn : ¬ n < 10 := by omega
      have hrec : n / 10 < f := by omega
      rw [if_neg h0, ih (n / 10) _ hrec]
      conv_rhs => rw [natDigits]
      rw [if_neg hn, List.append_assoc]
      rfl

/-- In base 10, `Nat.toDigits` is the reference digit string. -/
theorem toDigits_eq_natDigits (n : Nat) : Nat.toDigits 10 n = natDigits n := by
  unfold Nat.toDigits
  rw [toDigitsCore_eq_natDigits (n + 1) n [] (by omega), List.append_nil]

/-- Decoding inverts `Nat.digitChar` on decimal digits. -/
theorem decodeDigit_digitChar : ∀ d : Nat, d < 10 → decodeDigit (Nat.digitChar d) = d := by
  decide

/-- Folding the decoder over the reference digit string reconstructs the
number (with the accumulator shifted past its digits). -/
theorem foldl_decode_natDigits (n : Nat) :
    ∀ acc : Nat, (natDigits n).foldl (fun a c => a * 10 + decodeDigit c) acc =
      acc * 10 ^ (natDigits n).length + n := by
  induction n using Nat.strong_induction_on with
  | _ n ih =>
    intro acc
    by_cases h : n < 10
    · rw [natDigits, if_pos h]
      simp [decodeDigit_digitChar n h]
    · have hdiv : n / 10 < n := Nat.div_lt_self (by omega) (by omega)
      rw [natDigits, if_neg h, List.foldl_append, ih (n / 10) hdiv acc]
      simp only [List.foldl_cons, List.foldl_nil, List.length_append, List.length_cons,
        List.length_nil]
      rw [decodeDigit_digitChar (n % 10) (by omega)]
      have key : n / 10 * 10 + n % 10 = n := by omega
      calc (acc * 10 ^ (natDigits (n / 10)).length + n / 10) * 10 + n % 10
          = acc * (10 ^ (natDigits (n / 10)).length * 10) + (n / 10 * 10 + n % 10) := by ring
        _ = acc * 10 ^ ((natDigits (n / 10)).length + (0 + 1)) + n := by
            rw [key]; ring_nf

/-- The reference digit string decodes back to the number. -/
theorem decodeDigits_natDigits (n : Nat) : decodeDigits (natDigits n) = n := by
  have h := foldl_decode_natDigits n 0
  simpa [decodeDigits] using h

/-- Decimal printing `Nat.repr` is injective: distinct numbers print distinctly. -/
theorem natRepr_injective {a b : Nat} (h : Nat.repr a = Nat.repr b) : a = b := by
  have hd : Nat.toDigits 10 a = Nat.toDigits 10 b := by
    have := congrArg String.data h
    simpa [Nat.repr, List.asString] using this
  rw [toDigits_eq_natDigits, toDigits_eq_natDigits] at hd
  have := congrArg decodeDigits hd
  rwa [decodeDigits_natDigits, decodeDigits_natDigits] at this

/-- Strings with equal character data are equal. -/
theorem string_data_inj {a b : String} (h : a.data = b.data) : a = b :=
  congrArg String.mk h

/-- Left cancellation for string append. -/
theorem string_append_cancel_left {a b c : String} (h : a ++ b = a ++ c) : b = c := by
  have hd := congrArg String.data h
  simp only [String.data_append] at hd
  exact string_data_inj (List.append_cancel_left hd)

/-- Right cancellation for string append. -/
theorem string_append_cancel_right {a b c : String} (h : a ++ c = b ++ c) : a = b := by
  have hd := congrArg String.data h
  simp only [String.data_append] at hd
  exact string_data_inj (List.append_cancel_right hd)

/-- C7 counterexample: two back-to-back calls that observe the same
timestamp tick (here tick 5, twice) return the identical path, not two
distinct paths — the path depends on nothing but the tick. -/
theorem template_path_same_tick_collision :
    templatePathsOfTwoCalls (some "/tmp") 5 5 =
      .ok ("/tmp/baked-template-5.yaml", "/tmp/baked-template-5.yaml") := rfl

/-- C7 (amended): two calls to `getTemplatePath` within the same run that
observe distinct timestamp ticks return two distinct paths, both under
the configured scratch directory. -/
theorem template_paths_distinct_ticks (temp : String) (t1 t2 : Nat)
    (ht : temp ≠ "") (hne : t1 ≠ t2) :
    templatePathsOfTwoCalls (some temp) t1 t2 =
      .ok (temp ++ "/" ++ ("baked-template-" ++ toString t1 ++ ".yaml"),
           temp ++ "/" ++ ("baked-template-" ++ toString t2 ++ ".yaml")) ∧
    temp ++ "/" ++ ("baked-template-" ++ toString t1 ++ ".yaml") ≠
      temp ++ "/" ++ ("baked-template-" ++ toString t2 ++ ".yaml") := by
  constructor
  · simp [templatePathsOfTwoCalls, getTemplatePath, pathJoin, ht]
  · intro h
    apply hne
    have h1 := string_append_cancel_left h
    have h2 := string_append_cancel_right h1
    have h3 : toString t1 = toString t2 := string_append_cancel_left h2
    exact natRepr_injective h3

/-- Witness for C7 (amended): ticks 3 and 7 under `/tmp`. -/
theorem template_paths_distinct_ticks_witness :
    ("/tmp" : String) ≠ "" ∧ (3 : Nat) ≠ 7 ∧
    (templatePathsOfTwoCalls (some "/tmp") 3 7 =
      .ok ("/tmp" ++ "/" ++ ("baked-template-" ++ toString 3 ++ ".yaml"),
           "/tmp" ++ "/" ++ ("baked-template-" ++ toString 7 ++ ".yaml")) ∧
     "/tmp" ++ "/" ++ ("baked-template-" ++ toString 3 ++ ".yaml") ≠
       "/tmp" ++ "/" ++ ("baked-template-" ++ toString 7 ++ ".yaml")) :=
  ⟨by decide, by decide, template_paths_distinct_ticks "/tmp" 3 7 (by decide) (by decide)⟩

/-- A helm bake reports exactly one complete `manifestsBundle` output on
success and reports no output on any failure. -/
theorem helmBake_trace (w : World) (tr : Trace) (r : Except String Unit)
    (h : helmBake w = (tr, r)) :
    (r = .ok () → ∃ p, tr.outputs = [("manifestsBundle", p)]) ∧
    (∀ e, r = .error e → tr.outputs = []) := by
  unfold helmBake at h
  repeat' split at h
  all_goals injection h with h1 h2
  all_goals subst h1 h2
  all_goals first
    | exact ⟨fun hok => by simp at hok, fun e' herr => rfl⟩
    | exact ⟨fun _ => ⟨_, rfl⟩, fun e' herr => by simp at herr⟩

/-- A kompose bake reports exactly one complete `manifestsBundle` output
on success and reports no output on any failure. -/
theorem komposeBake_trace (w : World) (tr : Trace) (r : Except String Unit)
    (h : komposeBake w = (tr, r)) :
    (r = .ok () → ∃ p, tr.outputs = [("manifestsBundle", p)]) ∧
    (∀ e, r = .error e → tr.outputs = []) := by
  unfold komposeBake at h
  repeat' split at h
  all_goals injection h with h1 h2
  all_goals subst h1 h2
  all_goals first
    | exact ⟨fun hok => by simp at hok, fun e' herr => rfl⟩
    | exact ⟨fun _ => ⟨_, rfl⟩, fun e' herr => by simp at herr⟩

/-- A kustomize bake reports exactly one complete `manifestsBundle`
output on success and reports no output on any failure. -/
theorem kustomizeBake_trace (w : World) (tr : Trace) (r : Except String Unit)
    (h : kustomizeBake w = (tr, r)) :
    (r = .ok () → ∃ p, tr.outputs = [("manifestsBundle", p)]) ∧
    (∀ e, r = .error e → tr.outputs = []) := by
  unfold kustomizeBake at h
  repeat' split at h
  all_goals injection h with h1 h2
  all_goals subst h1 h2
  all_goals first
    | exact ⟨fun hok => by simp at hok, fun e' herr => rfl⟩
    | exact ⟨fun _ => ⟨_, rfl⟩, fun e' herr => by simp at herr⟩

/-- When the engine selection succeeded, `run` is `bake()` under the
orchestrator's try/catch: the trace passes through and an error is
wrapped with the fixed contextual prefix. -/
theorem run_eq_of_selected (w : World) (engine : EngineKind)
    (hne : w.inputs.renderEngine ≠ "")
    (hsel : selectEngine w.inputs.renderEngine = some engine) :
    run w = ((bakeDispatch engine w).1,
      match (bakeDispatch engine w).2 with
      | .ok () => .ok ()
      | .error err => .error ("Failed to run bake action. Error: " ++ err)) := by
  unfold run
  have hgi : getInputRequired w.inputs.renderEngine "renderEngine" =
      .ok w.inputs.renderEngine := by simp [getInputRequired, hne]
  simp only [hgi, hsel]
  rcases hX : bakeDispatch engine w with ⟨tr, r⟩
  simp only [hX]
  cases r with
  | ok u => cases u; rfl
  | error e => rfl

/-- C8: every error raised inside `bake()` propagates unretried to the
orchestrator, which wraps it in the single fixed-format message
`Failed to run bake action. Error: <description>`; on such a failure no
`manifestsBundle` output is reported, and on success exactly one complete
manifest path is reported. -/
theorem bake_failures_wrapped_no_output (w : World) (engine : EngineKind)
    (hsel : selectEngine w.inputs.renderEngine = some engine) :
    (∀ e, (bakeDispatch engine w).2 = .error e →
      run w = ((bakeDispatch engine w).1,
        .error ("Failed to run bake action. Error: " ++ e)) ∧
      (bakeDispatch engine w).1.outputs = []) ∧
    ((bakeDispatch engine w).2 = .ok () →
      run w = ((bakeDispatch engine w).1, .ok ()) ∧
      ∃ p, (bakeDispatch engine w).1.outputs = [("manifestsBundle", p)]) := by
  have hne : w.inputs.renderEngine ≠ "" := by
    intro h
    rw [h] at hsel
    simp [selectEngine] at hsel
  have htr : ((bakeDispatch engine w).2 = .ok () →
        ∃ p, (bakeDispatch engine w).1.outputs = [("manifestsBundle", p)]) ∧
      (∀ e, (bakeDispatch engine w).2 = .error e →
        (bakeDispatch engine w).1.outputs = []) := by
    cases engine
    · exact helmBake_trace w _ _ rfl
    · exact komposeBake_trace w _ _ rfl
    · exact kustomizeBake_trace w _ _ rfl
  constructor
  · intro e he
    refine ⟨?_, htr.2 e he⟩
    rw [run_eq_of_selected w engine hne hsel, he]
  · intro hok
    refine ⟨?_, htr.1 hok⟩
    rw [run_eq_of_selected w engine hne hsel, hok]

/-- Witness for C8: a helm run whose tool resolution fails is reported
once, wrapped, with no output. -/
theorem bake_failures_wrapped_no_output_witness :
    selectEngine helmFailWorld.inputs.renderEngine = some EngineKind.helm ∧
    (bakeDispatch EngineKind.helm helmFailWorld).2 = .error "helm not found" ∧
    run helmFailWorld =
      ((bakeDispatch EngineKind.helm helmFailWorld).1,
        .error ("Failed to run bake action. Error: " ++ "helm not found")) ∧
    (bakeDispatch EngineKind.helm helmFailWorld).1.outputs = [] := by
  have h := (bake_failures_wrapped_no_output helmFailWorld EngineKind.helm rfl).1
    "helm not found" rfl
  exact ⟨rfl, rfl, h.1, h.2⟩

/-- C9: when the `kubectl version --client=true -o json` invocation
produces empty stdout, the version gate performs no check and raises no
error — the kustomize bake proceeds to invoke the renderer as if the
gate had passed. -/
theorem empty_version_stdout_skips_gate :
    validateKustomize VersionStdout.empty = .ok () ∧
    (kustomizeBake kustomizeEmptyVersionWorld).2 = .ok () ∧
    (kustomizeBake kustomizeEmptyVersionWorld).1.calls =
      [("/usr/local/bin/kubectl", ["version", "--client=true", "-o", "json"]),
       ("/usr/local/bin/kubectl", ["kustomize", "./overlay"])] :=
  ⟨rfl, rfl, rfl⟩

/-- C10: an unknown `renderEngine` value fails before the orchestrator's
try/catch around `bake()`: the run ends with the bare
`Unknown render engine` error, which is never of the wrapped
`Failed to run bake action. Error: ...` form. -/
theorem unknown_engine_error_unwrapped (w : World)
    (hsel : selectEngine w.inputs.renderEngine = none)
    (hne : w.inputs.renderEngine ≠ "") :
    run w = (emptyTrace, .error "Unknown render engine") ∧
    ∀ e : String, "Unknown render engine" ≠ "Failed to run bake action. Error: " ++ e := by
  constructor
  · unfold run
    have hgi : getInputRequired w.inputs.renderEngine "renderEngine" =
        .ok w.inputs.renderEngine := by simp [getInputRequired, hne]
    simp only [hgi, hsel]
  · intro e h
    have hl := congrArg String.length h
    rw [String.length_append] at hl
    rw [show ("Unknown render engine" : String).length = 21 from rfl] at hl
    rw [show ("Failed to run bake action. Error: " : String).length = 34 from rfl] at hl
    omega

/-- Witness for C10: the unrecognised value `helm3`. -/
theorem unknown_engine_error_unwrapped_witness :
    selectEngine unknownEngineWorld.inputs.renderEngine = none ∧
    unknownEngineWorld.inputs.renderEngine ≠ "" ∧
    run unknownEngineWorld = (emptyTrace, .error "Unknown render engine") := by
  have h := unknown_engine_error_unwrapped unknownEngineWorld rfl (by decide)
  exact ⟨rfl, by decide, h.1⟩

/-- C4 (code behaviour at the failing input): with the compose file and
the kustomization path absent on disk, both bakes still succeed and the
renderer processes are invoked — the un-awaited `ioUtil.exists` promise
is always truthy, so the not-exists branches never fire and no
path-bearing error is raised before the renderer invocation. -/
theorem missing_paths_not_detected :
    (komposeMissingFileWorld.fileExists "/missing/docker-compose.yml" = false ∧
     (komposeBake komposeMissingFileWorld).2 = .ok () ∧
     (komposeBake komposeMissingFileWorld).1.calls =
       [("/usr/local/bin/kompose",
         ["convert", "-f", "/missing/docker-compose.yml", "-o", "/tmp/baked-template-7.yaml"])]) ∧
    (kustomizeMissingPathWorld.fileExists "./missing-overlay" = false ∧
     (kustomizeBake kustomizeMissingPathWorld).2 = .ok () ∧
     (kustomizeBake kustomizeMissingPathWorld).1.calls =
       [("/usr/local/bin/kubectl", ["version", "--client=true", "-o", "json"]),
        ("/usr/local/bin/kubectl", ["kustomize", "./missing-overlay"])]) :=
  ⟨⟨rfl, rfl, rfl⟩, ⟨rfl, rfl, rfl⟩⟩
